import Mathlib

/-!
# Verification of the ILLData SFTP proposal-data client

This development embeds the repository's SFTP client (`illdata/sftp.py`,
class `IllSftp`) in Lean and proves/refutes the behavioural claims of its
specification.  The repository also ships a legacy flat module
(`illdata.py`); the package client `illdata/sftp.py` is the implementation
the specification documents and is the one modelled here.

The remote SFTP server, the transport and the local filesystem are external
collaborators; they are modelled as oracles (`Env`) and a small local
filesystem state (`LocalFS`).  Every remote call issued by the client is
recorded in a trace so that claims about *which* remote operations happen
(e.g. "the home directory is resolved exactly once per connect") are
statable.
-/

/-! ## POSIX path model (embedding of `_join_posix` / `pathlib.PurePosixPath`)

`_join_posix` in `sftp.py` builds a `PurePosixPath` from its first argument
and joins the remaining arguments onto it with `/`.  `PurePosixPath` parses a
string into a root (`""`, `"/"`, or the POSIX-special `"//"`) and a list of
components, dropping empty components and `"."`; joining with a segment that
has a root replaces the whole path; rendering re-inserts single separators.
-/

/-- Split a character list on `'/'`, keeping empty segments. -/
def splitSlashAux : List Char → List Char → List String
  | [], acc => [String.mk acc.reverse]
  | c :: cs, acc =>
    if c = '/' then String.mk acc.reverse :: splitSlashAux cs []
    else splitSlashAux cs (c :: acc)

/-- Split a string on `'/'`. -/
def splitSlash (s : String) : List String := splitSlashAux s.data []

/-- A parsed POSIX pure path: a root (`""`, `"/"` or `"//"`) and components. -/
structure PosixPath where
  root : String
  comps : List String
deriving DecidableEq, Repr

/-- The root of a path string, with the POSIX `"//"` special case:
exactly two leading slashes keep a `"//"` root, one or three-or-more give `"/"`. -/
def rootOf (s : String) : String :=
  match s.data with
  | '/' :: '/' :: '/' :: _ => "/"
  | '/' :: '/' :: _ => "//"
  | '/' :: _ => "/"
  | _ => ""

/-- Parse a string as `PurePosixPath` does: record the root and the
components, dropping empty components and `"."`. -/
def parsePosix (s : String) : PosixPath :=
  ⟨rootOf s, (splitSlash s).filter (fun c => c != "" && c != ".")⟩

/-- `'/'.join` of the components. -/
def renderComps : List String → String
  | [] => ""
  | [c] => c
  | c :: c2 :: cs => c ++ "/" ++ renderComps (c2 :: cs)

/-- Render a parsed path back to a string (`str()` of a `PurePosixPath`):
the empty relative path renders as `"."`. -/
def PosixPath.toStr (p : PosixPath) : String :=
  match p.comps with
  | [] => if p.root = "" then "." else p.root
  | _ => p.root ++ renderComps p.comps

/-- `PurePosixPath.__truediv__`: a rooted (absolute) right operand replaces
the whole path, otherwise components are appended. -/
def PosixPath.child (p q : PosixPath) : PosixPath :=
  if q.root = "" then ⟨p.root, p.comps ++ q.comps⟩ else q

/-- Embedding of `_join_posix(*parts)`: parse the first part and fold the
rest onto it with `/`, then render. -/
def join_posix (first : String) (rest : List String) : String :=
  (rest.foldl (fun p part => p.child (parsePosix part)) (parsePosix first)).toStr

/-! ## Client data model (embedding of `illdata/sftp.py`)

The client-level error kinds come from the `illdata.exceptions` module,
which `sftp.py` imports but whose source file is not part of the sources
here; the specification's error-kind table (`ConnectionError` /
`NotConnectedError` / `NoProposalSelectedError` / `RemoteOperationError`)
is the authority for them. -/

/-- A remote operation issued by the client, as recorded in the trace. -/
inductive ROp where
  | mkConn
  | readlink (arg : String)
  | chdirOp (arg : String)
  | listdirOp (arg : String)
  | listdirAttrOp (arg : String)
  | getOp (remote localp : String)
  | closeOp
deriving DecidableEq, Repr

/-- Modelled from the spec: the repository's `illdata.exceptions` module
(imported by `sftp.py` but absent from the sources) defines the
client-level error classes `IllDataError`, `NotConnectedError` and
`NoProposalSelectedError`; they are modelled as distinct constructors.
Failures of remote calls on a healthy session propagate the underlying
transport exception, modelled as `remoteOp` tagged with the failing call. -/
inductive Err where
  | illData (msg : String)
  | notConnected (msg : String)
  | noProposal (msg : String)
  | remoteOp (op : ROp)
deriving DecidableEq, Repr

deriving instance DecidableEq for Except

/-- A live `pysftp.Connection`, modelled by its remote working directory
(initially the login directory, updated by `chdir`). -/
structure Conn where
  cwd : String
deriving DecidableEq, Repr

/-- The `IllSftp` dataclass of `sftp.py`: credentials plus the four private
fields `_connection`, `_home`, `_proposal`, `_propdir`. -/
structure IllSftp where
  hostname : String
  username : String
  password : String
  port : Nat := 22
  known_hosts_path : Option String := none
  _connection : Option Conn := none
  _home : String := ""
  _proposal : String := ""
  _propdir : String := ""
deriving DecidableEq, Repr

/-- The `connected` property: `self._connection is not None`. -/
def IllSftp.connected (s : IllSftp) : Bool := s._connection.isSome

/-- The `proposal` property: the currently opened proposal id, or `""`. -/
def IllSftp.proposal (s : IllSftp) : String := s._proposal

/-- The remote server and transport, as an oracle: whether creating the
connection succeeds, the login directory, and the outcome of each remote
call as a function of the connection's working directory and the argument
passed. -/
structure Env where
  connectOk : Bool
  initCwd : String
  readlinkR : String → String → Option String
  chdirOkR : String → String → Bool
  listdirR : String → String → Option (List String)
  getOkR : String → String → String → Bool
  closeOkR : String → Bool

/-! ### Local filesystem model (for `os.path` / `os.makedirs` in `download`)

Local directories are represented as absolute component lists; the local
working directory resolves relative paths, `os.path.normpath` semantics
drop `""`/`"."` components and resolve `".."` against the accumulated
prefix (never above the root), `os.path.dirname` drops the final component,
and `os.makedirs(..., exist_ok=True)` creates the directory together with
all missing ancestors. -/

/-- Existing local directories (absolute, as component lists) and the local
working directory. -/
structure LocalFS where
  cwd : List String
  dirs : List (List String)
deriving DecidableEq, Repr

/-- `os.path.normpath` on an absolute component list: drop `""` and `"."`,
resolve `".."` (never above the root). -/
def normAbsAux : List String → List String → List String
  | acc, [] => acc.reverse
  | acc, c :: cs =>
    if c = "" ∨ c = "." then normAbsAux acc cs
    else if c = ".." then normAbsAux (acc.drop 1) cs
    else normAbsAux (c :: acc) cs

/-- `os.path.abspath` as components: absolute inputs are normalized as they
are, relative inputs are resolved against the local working directory. -/
def absParts (fs : LocalFS) (p : String) : List String :=
  match p.data with
  | '/' :: _ => normAbsAux [] (splitSlash p)
  | _ => normAbsAux [] (fs.cwd ++ splitSlash p)

/-- `os.path.dirname` on a normalized absolute component list. -/
def dirnameParts (l : List String) : List String := l.dropLast

/-- All prefixes of a component list (the directory chain). -/
def prefixesOf : List String → List (List String)
  | [] => [[]]
  | c :: cs => [] :: (prefixesOf cs).map (c :: ·)

/-- `os.makedirs(d, exist_ok=True)`: the directory and all its ancestors
exist afterwards. -/
def makedirs (fs : LocalFS) (d : List String) : LocalFS :=
  { fs with dirs := prefixesOf d ++ fs.dirs }

/-- A well-formed local filesystem: directories are closed under ancestors. -/
def prefixClosed (fs : LocalFS) : Prop :=
  ∀ d ∈ fs.dirs, ∀ e ∈ prefixesOf d, e ∈ fs.dirs

instance (fs : LocalFS) : Decidable (prefixClosed fs) := by
  unfold prefixClosed
  infer_instance

/-- The whole world a client call can read or mutate: the client object,
the local filesystem, and the trace of remote operations issued so far. -/
structure St where
  client : IllSftp
  fs : LocalFS
  trace : List ROp
deriving DecidableEq, Repr

/-! ### Operations of the client

Each method of `IllSftp` becomes a function `Env → ... → St → Except Err α × St`.
Python exceptions leave prior mutations in place, so the state is returned
on the error path as well. -/

/-- Message of the `IllDataError` raised by a failing `connect`. -/
def connectFailMsg : String := "Cannot connect to SFTP"

/-- Message of `NotConnectedError`. -/
def notConnectedMsg : String := "Call connect() first or use a with-block."

/-- Message of `NoProposalSelectedError`. -/
def noProposalMsg : String := "Open a proposal first: open_proposal('12345')."

/-- `_require_connection`: the current connection, or `NotConnectedError`. -/
def _require_connection (s : IllSftp) : Except Err Conn :=
  match s._connection with
  | none => .error (.notConnected notConnectedMsg)
  | some c => .ok c

/-- `_require_proposal`: `NoProposalSelectedError` unless a proposal is open. -/
def _require_proposal (s : IllSftp) : Except Err Unit :=
  if s._proposal = "" then .error (.noProposal noProposalMsg) else .ok ()

/-- `connect()`: a no-op when already connected; otherwise creates the
connection and resolves the `MyData` symlink to cache the home directory.
Any failure inside the `try` resets `_connection` to `None` and raises
`IllDataError`; `_home` is only assigned on success. -/
def connect (env : Env) (st : St) : Except Err Unit × St :=
  match st.client._connection with
  | some _ => (.ok (), st)
  | none =>
    if env.connectOk then
      let tr := st.trace ++ [ROp.mkConn, ROp.readlink "MyData"]
      match env.readlinkR env.initCwd "MyData" with
      | some h =>
        (.ok (), { st with
          client := { st.client with _connection := some ⟨env.initCwd⟩, _home := h },
          trace := tr })
      | none =>
        (.error (.illData connectFailMsg), { st with trace := tr })
    else
      (.error (.illData connectFailMsg),
       { st with trace := st.trace ++ [ROp.mkConn] })

/-- `disconnect()`: closes and drops the connection when there is one.
The `close()` call sits in a `try` whose `finally` sets `_connection` to
`None`: a failing `close` therefore propagates out of `disconnect` *after*
the connection has been dropped.  `_home`, `_proposal` and `_propdir` are
not touched on any path. -/
def disconnect (env : Env) (st : St) : Except Err Unit × St :=
  match st.client._connection with
  | none => (.ok (), st)
  | some c =>
    let st1 : St := { st with client := { st.client with _connection := none },
                              trace := st.trace ++ [ROp.closeOp] }
    if env.closeOkR c.cwd then (.ok (), st1)
    else (.error (.remoteOp ROp.closeOp), st1)

/-- `obj[4:] if obj.startswith("exp_") else obj` from `proposals()`. -/
def stripExp (s : String) : String :=
  match s.data with
  | 'e' :: 'x' :: 'p' :: '_' :: rest => String.mk rest
  | _ => s

/-- `proposals()`: list `<home>/byProposal` and strip the `exp_` prefix.
The Python generator is modelled fully forced, as the finite list it
yields. -/
def proposals (env : Env) (st : St) : Except Err (List String) × St :=
  match _require_connection st.client with
  | .error e => (.error e, st)
  | .ok c =>
    let rp := join_posix st.client._home ["byProposal"]
    let tr := st.trace ++ [ROp.listdirOp rp]
    match env.listdirR c.cwd rp with
    | none => (.error (.remoteOp (ROp.listdirOp rp)), { st with trace := tr })
    | some l => (.ok (l.map stripExp), { st with trace := tr })

/-- `open_proposal(value)`: sets `_proposal` first, then `chdir`s to
`<home>/byProposal`, then resolves the `exp_<value>` symlink into
`_propdir`.  A failing `chdir` or `readlink` therefore leaves `_proposal`
already updated while `_propdir` still holds its previous value. -/
def open_proposal (env : Env) (value : String) (st : St) : Except Err Unit × St :=
  match _require_connection st.client with
  | .error e => (.error e, st)
  | .ok c =>
    let cl1 := { st.client with _proposal := value }
    let target := join_posix st.client._home ["byProposal"]
    let tr1 := st.trace ++ [ROp.chdirOp target]
    if env.chdirOkR c.cwd target then
      let cl2 := { cl1 with _connection := some ⟨target⟩ }
      let tr2 := tr1 ++ [ROp.readlink ("exp_" ++ value)]
      match env.readlinkR target ("exp_" ++ value) with
      | some d => (.ok (), { st with client := { cl2 with _propdir := d }, trace := tr2 })
      | none => (.error (.remoteOp (ROp.readlink ("exp_" ++ value))),
                 { st with client := cl2, trace := tr2 })
    else
      (.error (.remoteOp (ROp.chdirOp target)), { st with client := cl1, trace := tr1 })

/-- `listdir(remote_path, with_attr)`: guards (connection first, then
proposal), then lists `_join_posix(self._propdir, remote_path)`.  The
`with_attr` flag only selects which remote listing call is used; the
attribute payloads are external and the listing names stand for either. -/
def listdir (env : Env) (remote_path : String) (with_attr : Bool) (st : St) :
    Except Err (List String) × St :=
  match _require_connection st.client with
  | .error e => (.error e, st)
  | .ok c =>
    match _require_proposal st.client with
    | .error e => (.error e, st)
    | .ok _ =>
      let p := join_posix st.client._propdir [remote_path]
      let op := if with_attr then ROp.listdirAttrOp p else ROp.listdirOp p
      let tr := st.trace ++ [op]
      match env.listdirR c.cwd p with
      | none => (.error (.remoteOp op), { st with trace := tr })
      | some l => (.ok l, { st with trace := tr })

/-- `download(remote_path, local_path)`: guards, then makes sure the local
destination directory exists (recursively), then `get`s
`_join_posix(self._propdir, remote_path)`.  The created directories persist
even when the transfer itself fails. -/
def download (env : Env) (remote_path local_path : String) (st : St) :
    Except Err Unit × St :=
  match _require_connection st.client with
  | .error e => (.error e, st)
  | .ok c =>
    match _require_proposal st.client with
    | .error e => (.error e, st)
    | .ok _ =>
      let dest_dir := dirnameParts (absParts st.fs local_path)
      let fs1 := if dest_dir ∈ st.fs.dirs then st.fs else makedirs st.fs dest_dir
      let rp := join_posix st.client._propdir [remote_path]
      let tr := st.trace ++ [ROp.getOp rp local_path]
      if env.getOkR c.cwd rp local_path then
        (.ok (), { st with fs := fs1, trace := tr })
      else
        (.error (.remoteOp (ROp.getOp rp local_path)), { st with fs := fs1, trace := tr })

/-! ### Concrete fixtures used by witnesses and counterexamples -/

/-- An empty local filesystem: only the root directory exists. -/
def fs0 : LocalFS := ⟨[], [[]]⟩

/-- A client as constructed, before any `connect`. -/
def clientBase : IllSftp :=
  { hostname := "sftp.ill.fr", username := "u", password := "p" }

/-- A never-connected world. -/
def stFresh : St := ⟨clientBase, fs0, []⟩

/-- A connected world with proposal `"A"` open (propdir `"/data/A"`). -/
def stProp : St :=
  ⟨{ clientBase with
      _connection := some ⟨"/home/u/byProposal"⟩
      _home := "/home/u"
      _proposal := "A"
      _propdir := "/data/A" }, fs0, []⟩

/-- A connected world with no proposal open. -/
def stConnNoProp : St :=
  ⟨{ clientBase with _connection := some ⟨"/login"⟩, _home := "/home/u" }, fs0, []⟩

/-- A remote on which everything succeeds: `MyData` resolves to `/home/u`,
`exp_12345` to `/data/12345`, listings return three proposal entries. -/
def envFull : Env :=
  { connectOk := true
    initCwd := "/login"
    readlinkR := fun _ a =>
      if a = "MyData" then some "/home/u"
      else if a = "exp_12345" then some "/data/12345" else none
    chdirOkR := fun _ _ => true
    listdirR := fun _ _ => some ["exp_12345", "sandbox", "exp_99"]
    getOkR := fun _ _ _ => true
    closeOkR := fun _ => true }

/-- A remote on which creating the connection itself fails. -/
def envFailConn : Env := { envFull with connectOk := false }

/-- A remote on which every `readlink` fails. -/
def envFailLink : Env := { envFull with readlinkR := fun _ _ => none }

/-- A remote on which closing the connection fails. -/
def envFailClose : Env := { envFull with closeOkR := fun _ => false }

/-! ## Helper lemmas -/

/-- Rendering a concatenation of two nonempty component lists inserts
exactly one separator between the two rendered halves. -/
theorem renderComps_append :
    ∀ (xs ys : List String), xs ≠ [] → ys ≠ [] →
      renderComps (xs ++ ys) = renderComps xs ++ "/" ++ renderComps ys
  | [], _, hx, _ => absurd rfl hx
  | [_], [], _, hy => absurd rfl hy
  | [c], d :: ds, _, _ => by simp [renderComps]
  | c :: c2 :: cs, ys, _, hy => by
    have ih := renderComps_append (c2 :: cs) ys (by simp) hy
    simp only [List.cons_append] at ih ⊢
    rw [renderComps, ih, renderComps]
    simp [String.append_assoc]

/-- `"exp_" ++ P` is never the string `"MyData"`. -/
theorem exp_ne_myData (P : String) : "exp_" ++ P ≠ "MyData" := by
  intro h
  have h2 := congrArg String.data h
  rw [String.data_append] at h2
  simp at h2

/-! ## Claims -/

/-- **C2, counterexample.**  The remote-path join used by
`listdir`/`download` is `_join_posix`, which follows `PurePosixPath`
semantics: a second segment with a leading slash is absolute and replaces
the first segment entirely, so joining `"a/b/"` and `"/c"` yields `"/c"`,
not the `"a/b/c"` the claim states. -/
theorem join_posix_absolute_counterexample :
    join_posix "a/b/" ["/c"] = "/c" ∧ join_posix "a/b/" ["/c"] ≠ "a/b/c" := by
  constructor <;> decide

/-- **C2, amended.**  For every pair of path segments whose second segment
is relative (parses with an empty root) and where both segments have at
least one component, `_join_posix` inserts exactly one separator between
the two normalized segments: the result is the normalized first segment,
one `"/"`, and the normalized second segment — duplicate and trailing
slashes are collapsed.  (A rooted second segment instead replaces the
first one entirely, per POSIX `pathlib` semantics.) -/
theorem join_posix_relative_normalizes (a b : String)
    (hb : (parsePosix b).root = "")
    (ha2 : (parsePosix a).comps ≠ []) (hb2 : (parsePosix b).comps ≠ []) :
    join_posix a [b] = (parsePosix a).toStr ++ "/" ++ (parsePosix b).toStr := by
  unfold join_posix
  simp only [List.foldl_cons, List.foldl_nil]
  rw [PosixPath.child, if_pos hb]
  rcases hA : parsePosix a with ⟨ra, ca⟩
  rcases hB : parsePosix b with ⟨rb, cb⟩
  rw [hA] at ha2
  rw [hB] at hb2 hb
  simp only at ha2 hb2 hb
  subst hb
  rcases ca with _ | ⟨c, cs⟩
  · exact absurd rfl ha2
  rcases cb with _ | ⟨d, ds⟩
  · exact absurd rfl hb2
  have hrender := renderComps_append (c :: cs) (d :: ds) (by simp) (by simp)
  rw [PosixPath.toStr, PosixPath.toStr, PosixPath.toStr]
  simp only [List.cons_append]
  rw [show ((c :: cs) ++ (d :: ds) : List String) = c :: (cs ++ d :: ds) from rfl] at hrender
  rw [hrender, String.empty_append, String.append_assoc, String.append_assoc,
    ← String.append_assoc]

/-- **C2, witness.**  Joining `"a/b/"` with the relative segment `"c"`
yields `"a/b/c"`: the trailing slash is not duplicated. -/
theorem join_posix_relative_normalizes_witness :
    join_posix "a/b/" ["c"] = "a/b/c" := by
  have h := join_posix_relative_normalizes "a/b/" "c" (by decide) (by decide) (by decide)
  rw [h]
  decide

/-- **C1 (code bug).**  `open_proposal` assigns `self._proposal = value`
*before* the `chdir`/`readlink` calls.  On a client connected with proposal
`"A"` open (propdir `"/data/A"`), calling `open_proposal "B"` against a
remote where `readlink("exp_B")` fails raises the remote error but leaves
`_proposal = "B"` paired with the stale `_propdir = "/data/A"` — not the
all-or-nothing update the claim requires. -/
theorem open_proposal_partial_update :
    (open_proposal envFailLink "B" stProp).1
      = .error (.remoteOp (ROp.readlink "exp_B"))
    ∧ (open_proposal envFailLink "B" stProp).2.client.proposal = "B"
    ∧ (open_proposal envFailLink "B" stProp).2.client._propdir = "/data/A" := by
  refine ⟨?_, ?_, ?_⟩ <;> decide

/-- **C3, counterexample.**  Two concrete refutations of the claim.  On a
remote whose `close()` fails, `disconnect` on a connected client *raises*
(the `try`/`finally` re-raises the close error after dropping the
connection), so "succeeds without raising from every state" is false.
And on a remote whose `close()` succeeds, `disconnect` on a client with
proposal `"A"` open returns normally but does *not* clear the cached home
directory or the proposal selection: afterwards the `proposal` property
still reports `"A"`, not the "no open proposal" the claim states. -/
theorem disconnect_stale_selection_counterexample :
    (disconnect envFailClose stProp).1 = .error (.remoteOp ROp.closeOp)
    ∧ (disconnect envFailClose stProp).2.client.connected = false
    ∧ (disconnect envFull stProp).1 = .ok ()
    ∧ (disconnect envFull stProp).2.client.connected = false
    ∧ (disconnect envFull stProp).2.client.proposal = "A"
    ∧ (disconnect envFull stProp).2.client._home = "/home/u"
    ∧ ¬ (disconnect envFull stProp).2.client.proposal = "" := by
  refine ⟨?_, ?_, ?_, ?_, ?_, ?_, ?_⟩ <;> decide

/-- **C3, amended.**  From every state, `disconnect()` always drops the
connection (the client reports not-connected afterwards) and is idempotent
— the second consecutive call is a no-op that succeeds, with the client
reporting not-connected after both calls.  But it succeeds without raising
only when already disconnected or when the underlying `close` succeeds:
a failing `close` propagates out of `disconnect` after the connection has
been dropped.  And it clears only the connection: the cached home
directory and the proposal selection (`_home`, `_proposal`, `_propdir`)
are left unchanged on every path, so `proposal` keeps reporting the
previously opened proposal. -/
theorem disconnect_idempotent_keeps_cache (env : Env) (st : St) :
    (disconnect env st).2.client.connected = false
    ∧ disconnect env (disconnect env st).2 = (.ok (), (disconnect env st).2)
    ∧ (disconnect env (disconnect env st).2).2.client.connected = false
    ∧ (disconnect env st).2.client._home = st.client._home
    ∧ (disconnect env st).2.client._proposal = st.client._proposal
    ∧ (disconnect env st).2.client._propdir = st.client._propdir
    ∧ (st.client._connection = none → disconnect env st = (.ok (), st))
    ∧ (∀ c : Conn, st.client._connection = some c →
        (env.closeOkR c.cwd = true → (disconnect env st).1 = .ok ())
        ∧ (env.closeOkR c.cwd = false →
            (disconnect env st).1 = .error (.remoteOp ROp.closeOp))) := by
  rcases h : st.client._connection with _ | c
  · simp [disconnect, h, IllSftp.connected]
  · by_cases hcl : env.closeOkR c.cwd <;>
      simp [disconnect, h, hcl, IllSftp.connected]

/-- **C3, witness.**  On the fixture remote with a succeeding `close`, the
first `disconnect` returns normally, drops the connection but keeps the
proposal selection, and the second call is a no-op. -/
theorem disconnect_idempotent_keeps_cache_witness :
    (disconnect envFull stProp).1 = .ok ()
    ∧ (disconnect envFull stProp).2.client.connected = false
    ∧ (disconnect envFull stProp).2.client._proposal = "A"
    ∧ disconnect envFull (disconnect envFull stProp).2
        = (.ok (), (disconnect envFull stProp).2) := by
  have h := disconnect_idempotent_keeps_cache envFull stProp
  refine ⟨(h.2.2.2.2.2.2.2 ⟨"/home/u/byProposal"⟩ rfl).1 rfl, h.1, ?_, h.2.1⟩
  rw [h.2.2.2.2.1]
  decide

/-- **C4, counterexample.**  On a never-connected client with no proposal
open, `listdir` and `download` fail with `NotConnectedError`, not with the
`NoProposalSelectedError` the claim states: the connection guard runs
before the proposal guard. -/
theorem listdir_disconnected_counterexample :
    listdir envFull "." false stFresh = (.error (.notConnected notConnectedMsg), stFresh)
    ∧ download envFull "f.dat" "out/f.dat" stFresh
        = (.error (.notConnected notConnectedMsg), stFresh)
    ∧ (Except.error (Err.notConnected notConnectedMsg) : Except Err (List String))
        ≠ Except.error (Err.noProposal noProposalMsg) := by
  refine ⟨?_, ?_, ?_⟩ <;> decide

/-- **C4, amended.**  On a *connected* client with no proposal open, the
proposal-scoped operations `listdir` and `download` fail with
`NoProposalSelectedError` and leave the state unchanged; on a disconnected
client the connection guard fires first, so they fail with
`NotConnectedError` instead. -/
theorem proposal_guard_when_connected (env : Env) (rp lp : String) (attr : Bool)
    (st : St) (c : Conn)
    (hc : st.client._connection = some c) (hp : st.client._proposal = "") :
    listdir env rp attr st = (.error (.noProposal noProposalMsg), st)
    ∧ download env rp lp st = (.error (.noProposal noProposalMsg), st)
    ∧ (∀ st2 : St, st2.client._connection = none →
        listdir env rp attr st2 = (.error (.notConnected notConnectedMsg), st2)
        ∧ download env rp lp st2 = (.error (.notConnected notConnectedMsg), st2)) := by
  refine ⟨?_, ?_, fun st2 h2 => ⟨?_, ?_⟩⟩ <;>
    simp [listdir, download, _require_connection, _require_proposal, hc, hp, *]

/-- **C4, witness.**  On the connected fixture with no proposal open, both
operations report `NoProposalSelectedError`. -/
theorem proposal_guard_when_connected_witness :
    listdir envFull "f.dat" false stConnNoProp
      = (.error (.noProposal noProposalMsg), stConnNoProp)
    ∧ download envFull "f.dat" "out/f.dat" stConnNoProp
      = (.error (.noProposal noProposalMsg), stConnNoProp) := by
  have h := proposal_guard_when_connected envFull "f.dat" "out/f.dat" false
    stConnNoProp ⟨"/login"⟩ rfl rfl
  exact ⟨h.1, h.2.1⟩

/-- **C6.**  If creating the transport fails (`connectOk = false`) or the
home-directory resolution of `MyData` fails during `connect`, the call
fails with the client-level `IllDataError` (the spec's `ConnectionError`
kind) and the session is left disconnected: `_connection` is `none` and
the `connected` property reports `false`. -/
theorem connect_failure_leaves_disconnected (env : Env) (st : St)
    (h0 : st.client._connection = none)
    (hfail : env.connectOk = false ∨ env.readlinkR env.initCwd "MyData" = none) :
    (connect env st).1 = .error (.illData connectFailMsg)
    ∧ (connect env st).2.client._connection = none
    ∧ (connect env st).2.client.connected = false := by
  rcases hfail with hf | hf
  · simp [connect, h0, hf, IllSftp.connected]
  · by_cases hok : env.connectOk <;> simp [connect, h0, hf, hok, IllSftp.connected]

/-- **C6, witness.**  Against the remote whose transport setup fails, a
fresh `connect` reports `IllDataError` and the client stays disconnected. -/
theorem connect_failure_leaves_disconnected_witness :
    (connect envFailConn stFresh).1 = .error (.illData connectFailMsg)
    ∧ (connect envFailConn stFresh).2.client.connected = false := by
  have h := connect_failure_leaves_disconnected envFailConn stFresh rfl (Or.inl rfl)
  exact ⟨h.1, h.2.2⟩

/-- **C10.**  Calling `connect()` while already connected returns
immediately: the whole world — client object (including the cached home and
any open proposal), local filesystem, and remote-operation trace — is
unchanged, and no new remote connection is created. -/
theorem connect_already_connected_noop (env : Env) (st : St) (c : Conn)
    (hc : st.client._connection = some c) :
    connect env st = (.ok (), st) := by
  simp [connect, hc]

/-- **C10, witness.**  `connect` on the already-connected fixture is a
no-op. -/
theorem connect_already_connected_noop_witness :
    connect envFull stProp = (.ok (), stProp) :=
  connect_already_connected_noop envFull stProp ⟨"/home/u/byProposal"⟩ rfl

/-- Stripping an entry that literally starts with `exp_` yields its suffix. -/
theorem stripExp_exp (t : String) : stripExp ("exp_" ++ t) = t := by
  cases t
  rfl

/-- An entry that is not of the form `exp_<t>` is returned unmodified. -/
theorem stripExp_of_no_exp (s : String) (hs : ∀ t, s ≠ "exp_" ++ t) :
    stripExp s = s := by
  unfold stripExp
  split
  · next rest heq =>
    refine absurd ?_ (hs (String.mk rest))
    cases s with
    | mk d =>
      have hd : d = 'e' :: 'x' :: 'p' :: '_' :: rest := heq
      subst hd
      rfl
  · rfl

/-- **C5.**  `proposals()` on a disconnected client fails with
`NotConnectedError` (state untouched); on a connected client it yields the
finite list of stripped entries of the remote `<home>/byProposal` listing,
leaves the client unchanged, and is restartable: a second call re-issues
the remote listing (the trace records the listing operation once per call)
and returns the same sequence. -/
theorem proposals_lifecycle (env : Env) :
    (∀ st : St, st.client._connection = none →
      proposals env st = (.error (.notConnected notConnectedMsg), st))
    ∧ (∀ (st : St) (c : Conn) (l : List String),
        st.client._connection = some c →
        env.listdirR c.cwd (join_posix st.client._home ["byProposal"]) = some l →
        (proposals env st).1 = .ok (l.map stripExp)
        ∧ (proposals env st).2.client = st.client
        ∧ (proposals env st).2.trace
            = st.trace ++ [ROp.listdirOp (join_posix st.client._home ["byProposal"])]
        ∧ (proposals env (proposals env st).2).1 = (proposals env st).1
        ∧ (proposals env (proposals env st).2).2.trace
            = st.trace ++ [ROp.listdirOp (join_posix st.client._home ["byProposal"]),
                           ROp.listdirOp (join_posix st.client._home ["byProposal"])]) := by
  constructor
  · intro st h
    simp [proposals, _require_connection, h]
  · intro st c l hc hl
    simp [proposals, _require_connection, hc, hl]

/-- **C5, witness.**  On the fixture remote, `proposals` fails with
`NotConnectedError` before `connect`, and on a connected client returns the
same stripped listing on two consecutive calls. -/
theorem proposals_lifecycle_witness :
    proposals envFull stFresh = (.error (.notConnected notConnectedMsg), stFresh)
    ∧ (proposals envFull (proposals envFull stConnNoProp).2).1
        = (proposals envFull stConnNoProp).1 := by
  have h := proposals_lifecycle envFull
  exact ⟨h.1 stFresh rfl,
    (h.2 stConnNoProp ⟨"/login"⟩ ["exp_12345", "sandbox", "exp_99"] rfl rfl).2.2.2.1⟩

/-- **C7.**  `proposals()` maps the prefix-stripping function over the raw
remote listing, preserving order and length: each entry of the form
`exp_<t>` becomes `t`, and every other entry is returned unmodified. -/
theorem proposals_strip_exp (env : Env) (st : St) (c : Conn) (l : List String)
    (hc : st.client._connection = some c)
    (hl : env.listdirR c.cwd (join_posix st.client._home ["byProposal"]) = some l) :
    (proposals env st).1 = .ok (l.map stripExp)
    ∧ (l.map stripExp).length = l.length
    ∧ (∀ (i : Nat) (h1 : i < (l.map stripExp).length) (h2 : i < l.length),
        (l.map stripExp).get ⟨i, h1⟩ = stripExp (l.get ⟨i, h2⟩))
    ∧ (∀ t, stripExp ("exp_" ++ t) = t)
    ∧ (∀ s, (∀ t, s ≠ "exp_" ++ t) → stripExp s = s) := by
  refine ⟨?_, List.length_map l stripExp, ?_, stripExp_exp, stripExp_of_no_exp⟩
  · simp [proposals, _require_connection, hc, hl]
  · intro i h1 h2
    simp

/-- **C7, witness.**  The raw listing `["exp_12345", "sandbox", "exp_99"]`
is reported as `["12345", "sandbox", "99"]`. -/
theorem proposals_strip_exp_witness :
    (proposals envFull stConnNoProp).1 = .ok ["12345", "sandbox", "99"] := by
  have h := (proposals_strip_exp envFull stConnNoProp ⟨"/login"⟩
    ["exp_12345", "sandbox", "exp_99"] rfl rfl).1
  rw [h]
  decide

/-- **C8.**  For every valid proposal id `P`, on a fresh client `connect`
followed by `open_proposal P` and `listdir "."` succeeds, and the final
trace of remote operations contains *exactly one* `readlink "MyData"`:
the home directory is resolved once at connect time and the later calls
reuse the cached value. -/
theorem home_resolved_once (env : Env) (st : St) (P H d : String) (l : List String)
    (h0 : st.client._connection = none) (htr : st.trace = [])
    (hok : env.connectOk = true) (hP : P ≠ "")
    (hhome : env.readlinkR env.initCwd "MyData" = some H)
    (hchdir : env.chdirOkR env.initCwd (join_posix H ["byProposal"]) = true)
    (hlink : env.readlinkR (join_posix H ["byProposal"]) ("exp_" ++ P) = some d)
    (hls : env.listdirR (join_posix H ["byProposal"]) (join_posix d ["."]) = some l) :
    (connect env st).1 = .ok ()
    ∧ (open_proposal env P (connect env st).2).1 = .ok ()
    ∧ (listdir env "." false (open_proposal env P (connect env st).2).2).1 = .ok l
    ∧ (listdir env "." false (open_proposal env P (connect env st).2).2).2.trace.count
        (ROp.readlink "MyData") = 1 := by
  have e1 : connect env st
      = (.ok (), { st with
          client := { st.client with _connection := some ⟨env.initCwd⟩, _home := H },
          trace := st.trace ++ [ROp.mkConn, ROp.readlink "MyData"] }) := by
    simp [connect, h0, hok, hhome]
  rw [e1]
  have e2 : open_proposal env P
      { st with
        client := { st.client with _connection := some ⟨env.initCwd⟩, _home := H },
        trace := st.trace ++ [ROp.mkConn, ROp.readlink "MyData"] }
      = (.ok (), { st with
          client := { st.client with
            _connection := some ⟨join_posix H ["byProposal"]⟩
            _home := H
            _proposal := P
            _propdir := d }
          trace := st.trace ++ [ROp.mkConn, ROp.readlink "MyData",
            ROp.chdirOp (join_posix H ["byProposal"]),
            ROp.readlink ("exp_" ++ P)] }) := by
    simp [open_proposal, _require_connection, hchdir, hlink]
  rw [e2]
  have e3 : listdir env "." false
      { st with
        client := { st.client with
          _connection := some ⟨join_posix H ["byProposal"]⟩
          _home := H
          _proposal := P
          _propdir := d }
        trace := st.trace ++ [ROp.mkConn, ROp.readlink "MyData",
          ROp.chdirOp (join_posix H ["byProposal"]),
          ROp.readlink ("exp_" ++ P)] }
      = (.ok l, { st with
          client := { st.client with
            _connection := some ⟨join_posix H ["byProposal"]⟩
            _home := H
            _proposal := P
            _propdir := d }
          trace := st.trace ++ [ROp.mkConn, ROp.readlink "MyData",
            ROp.chdirOp (join_posix H ["byProposal"]),
            ROp.readlink ("exp_" ++ P),
            ROp.listdirOp (join_posix d ["."])] }) := by
    simp [listdir, _require_connection, _require_proposal, hP, hls]
  rw [e3]
  refine ⟨rfl, rfl, rfl, ?_⟩
  rw [htr]
  simp [List.count_cons, List.count_nil, exp_ne_myData P]

/-- **C8, witness.**  On the fixture remote, the
`connect; open_proposal "12345"; listdir "."` run succeeds and the final
trace holds exactly one `readlink "MyData"`. -/
theorem home_resolved_once_witness :
    (listdir envFull "." false
        (open_proposal envFull "12345" (connect envFull stFresh).2).2).1
      = .ok ["exp_12345", "sandbox", "exp_99"]
    ∧ (listdir envFull "." false
        (open_proposal envFull "12345" (connect envFull stFresh).2).2).2.trace.count
        (ROp.readlink "MyData") = 1 := by
  have h := home_resolved_once envFull stFresh "12345" "/home/u" "/data/12345"
    ["exp_12345", "sandbox", "exp_99"] rfl rfl rfl (by decide)
    rfl (by decide) (by decide) (by decide)
  exact ⟨h.2.2.1, h.2.2.2⟩

/-- **C9.**  On a connected client with a proposal open and a well-formed
local filesystem, `download` succeeds and afterwards the full directory
chain of the destination path exists: every ancestor of the destination's
directory is present in the local filesystem (missing intermediates are
created recursively before the transfer). -/
theorem download_creates_dirs (env : Env) (st : St) (rp lp : String) (c : Conn)
    (hc : st.client._connection = some c)
    (hp : st.client._proposal ≠ "")
    (hfs : prefixClosed st.fs)
    (hget : env.getOkR c.cwd (join_posix st.client._propdir [rp]) lp = true) :
    (download env rp lp st).1 = .ok ()
    ∧ ∀ e ∈ prefixesOf (dirnameParts (absParts st.fs lp)),
        e ∈ (download env rp lp st).2.fs.dirs := by
  constructor
  · simp [download, _require_connection, _require_proposal, hc, hp, hget]
  · intro e he
    by_cases hd : dirnameParts (absParts st.fs lp) ∈ st.fs.dirs
    · have hfseq : (download env rp lp st).2.fs = st.fs := by
        simp [download, _require_connection, _require_proposal, hc, hp, hget, hd]
      rw [hfseq]
      exact hfs _ hd e he
    · have hfseq : (download env rp lp st).2.fs
          = makedirs st.fs (dirnameParts (absParts st.fs lp)) := by
        simp [download, _require_connection, _require_proposal, hc, hp, hget, hd]
      rw [hfseq, makedirs]
      exact List.mem_append_left _ he

/-- **C9, witness.**  Downloading to `out/sub/f.dat` on an empty local
filesystem succeeds and creates the chain `out`, `out/sub`. -/
theorem download_creates_dirs_witness :
    (download envFull "f.dat" "out/sub/f.dat" stProp).1 = .ok ()
    ∧ ["out", "sub"] ∈ (download envFull "f.dat" "out/sub/f.dat" stProp).2.fs.dirs
    ∧ ["out"] ∈ (download envFull "f.dat" "out/sub/f.dat" stProp).2.fs.dirs := by
  have h := download_creates_dirs envFull stProp "f.dat" "out/sub/f.dat"
    ⟨"/home/u/byProposal"⟩ rfl (by decide) (by decide) rfl
  exact ⟨h.1, h.2 ["out", "sub"] (by decide), h.2 ["out"] (by decide)⟩
